import Mathlib

/-!
# Style-guide admin: shallow embedding and verification

This file embeds the recurring "design-token editor page" pattern of the
style-guide-system repository and proves/refutes the frozen claims about it.

The six token-category pages (`src/app/admin/{colors,typography,spacing,
border-radius,shadows,animations}/page.tsx`) are verbatim copies of one
pattern, differing only in the category name, the payload shape of a token
record, and the wording of error messages.  We embed the pattern once,
parameterised by the category.  Handlers are modelled as pure functions from
the relevant page state plus the outcomes of the (externally fallible)
persistence-gateway calls to the new page state, together with a trace of the
memory-mutation / gateway / notifier events the handler performs, in order.

The shared client-side store (`@/lib/store`, the zustand
`useStyleGuideStore`, included in the sources appended to
`src/types/style-guide.ts`, lines 348-505) holds, per category, the loaded
collection (`spacings : Spacing[]`), the active record
(`activeSpacing : Spacing | null`), the shared configuration
(`config : StyleGuideConfig | null`) and the error banner
(`error : string | null`); each `setX` store call is a plain field
replacement (`set({ field })`), which is how store writes are embedded
here.
-/

namespace StyleGuide

/-- The six design-token categories that have the editor-page pattern
(`ColorScheme, Typography, Spacing, BorderRadius, Shadow, Animation`,
per §2/§3 of the data model and the six `admin/*/page.tsx` files). -/
inductive TokenCategory where
  | colorScheme
  | typography
  | spacing
  | borderRadius
  | shadow
  | animation
deriving DecidableEq, Repr

/-- The categories accepted by the Change Notifier
(`useStyleGuideSocket.emitUpdate`): the six token categories plus
`component`, `image` and `feedback`.  The TypeScript annotation on
`emitUpdate` lists six of these; the call sites in the admin pages also pass
`borderRadius`, `shadow` and `animation` (e.g.
`border-radius/page.tsx:113`, `animations/page.tsx:114`), which the erased
runtime function accepts identically. -/
inductive Category where
  | colorScheme
  | typography
  | component
  | spacing
  | image
  | feedback
  | borderRadius
  | shadow
  | animation
deriving DecidableEq, Repr

/-- The actions emitted to the Change Notifier.  The TypeScript annotation
lists `add | update | remove | setActive`; `feedback/page.tsx:190` also
passes `comment`. -/
inductive Action where
  | add
  | update
  | remove
  | setActive
  | comment
deriving DecidableEq, Repr

/-- The embedding of a token category into the Change Notifier category set
(the string literal each page passes to `emitUpdate`). -/
def TokenCategory.toCategory : TokenCategory → Category
  | .colorScheme => .colorScheme
  | .typography => .typography
  | .spacing => .spacing
  | .borderRadius => .borderRadius
  | .shadow => .shadow
  | .animation => .animation

/-- A token record (`Spacing` / `Shadow` / ... in `types/style-guide.ts`).
The category-specific payload (`scale` for spacing, shadow and border
radius; colour fields, font maps, keyframes for the others) is modelled
uniformly as a string-keyed map, which is exactly the payload shape of the
spacing/shadow/border-radius records cited by the claims; none of the claims
depends on the payload's internal shape. -/
structure TokenRecord where
  id : String
  name : String
  version : Nat
  scale : List (String × String)
  createdAt : String
  updatedAt : String
  createdBy : String
deriving DecidableEq, Repr

/-- The shared configuration record (`StyleGuideConfig` in
`types/style-guide.ts`), the spec's Active-Selection Register.  The
TypeScript interface declares the six `active*` fields as `string`, but the
running code also stores `null` in them (delete path, settings insert), so
they are embedded as `Option String`; the JS empty string is `some ""`. -/
structure StyleGuideConfig where
  id : String
  name : String
  description : String
  version : String
  activeColorScheme : Option String
  activeTypography : Option String
  activeSpacing : Option String
  activeBorderRadius : Option String
  activeShadow : Option String
  activeAnimation : Option String
  customFeatures : List (String × Bool)
  createdAt : String
  updatedAt : String
  createdBy : String
deriving DecidableEq, Repr

/-- The Register field for a given token category (`config.activeSpacing`
on the spacing page, and so on). -/
def StyleGuideConfig.activeOf (c : StyleGuideConfig) : TokenCategory → Option String
  | .colorScheme => c.activeColorScheme
  | .typography => c.activeTypography
  | .spacing => c.activeSpacing
  | .borderRadius => c.activeBorderRadius
  | .shadow => c.activeShadow
  | .animation => c.activeAnimation

/-- Functional update of the Register field for a given token category
(the spread `{ ...config, activeSpacing: v }` on the spacing page, and so
on). -/
def StyleGuideConfig.setActiveOf (c : StyleGuideConfig) :
    TokenCategory → Option String → StyleGuideConfig
  | .colorScheme, v => { c with activeColorScheme := v }
  | .typography, v => { c with activeTypography := v }
  | .spacing, v => { c with activeSpacing := v }
  | .borderRadius, v => { c with activeBorderRadius := v }
  | .shadow, v => { c with activeShadow := v }
  | .animation, v => { c with activeAnimation := v }

/-- The shape of the row inserted into `style_guide_configs` by the
settings page's create branch (`settings/page.tsx:149-166`, snake_case
column names). -/
structure ConfigRow where
  id : String
  name : String
  description : String
  version : String
  active_color_scheme : Option String
  active_typography : Option String
  active_spacing : Option String
  active_border_radius : Option String
  active_shadow : Option String
  active_animation : Option String
  custom_features : List (String × Bool)
  created_at : String
  updated_at : String
  created_by : String
deriving DecidableEq, Repr

/-- A Version History Record (`VersionHistory` in `types/style-guide.ts`):
owning config id, semantic version string, change text, snapshot of the
config, timestamp and author. -/
structure VersionHistory where
  id : String
  styleGuideId : String
  version : String
  changes : String
  snapshot : StyleGuideConfig
  createdAt : String
  createdBy : String
deriving DecidableEq, Repr

/-- Observable events a handler performs, in program order: gateway calls,
store (in-memory) mutations, and Change Notifier emissions. -/
inductive Event where
  | gatewayList (cat : TokenCategory)
  | gatewayInsert (cat : TokenCategory) (r : TokenRecord)
  | gatewayUpdate (cat : TokenCategory) (r : TokenRecord)
  | gatewayDelete (cat : TokenCategory) (tid : String)
  | gatewayUpdateConfig (cat : TokenCategory) (field : Option String)
  | gatewayInsertConfig (row : ConfigRow)
  | gatewayUpdateConfigSettings (nm description ver now : String)
  | gatewayUpdateConfigVersion (ver now : String)
  | gatewayInsertHistory (h : VersionHistory)
  | memSetCollection (cat : TokenCategory)
  | memSetActive (cat : TokenCategory) (v : Option String)
  | memSetConfig (c : StyleGuideConfig)
  | emitChange (cat : Category) (act : Action)
deriving DecidableEq, Repr

/-- Whether an event is a persistence-gateway write (insert/update/delete). -/
def Event.isGatewayWrite : Event → Bool
  | .gatewayInsert _ _ => true
  | .gatewayUpdate _ _ => true
  | .gatewayDelete _ _ => true
  | .gatewayUpdateConfig _ _ => true
  | .gatewayInsertConfig _ => true
  | .gatewayUpdateConfigSettings _ _ _ _ => true
  | .gatewayUpdateConfigVersion _ _ => true
  | .gatewayInsertHistory _ => true
  | _ => false

/-- Whether an event is the in-memory replacement of the page's token
collection (a `setSpacings` / `setShadows` / ... store call). -/
def Event.isMemCollection : Event → Bool
  | .memSetCollection _ => true
  | _ => false

/-- `true` iff every in-memory collection mutation in the trace is strictly
preceded by some gateway write.  `seenWrite` records whether a gateway write
has already occurred. -/
def collectionWritesAfterGatewayWrite (seenWrite : Bool) : List Event → Bool
  | [] => true
  | e :: rest =>
    if e.isMemCollection && !seenWrite then false
    else collectionWritesAfterGatewayWrite (seenWrite || e.isGatewayWrite) rest

/-- The page state visible to one category page's handlers: the in-memory
collection (`spacings`), the in-memory active marker (`activeSpacing`), the
shared config (`config`) and the page error banner (`error`), all read from
and written to the shared zustand store `useStyleGuideStore` (`@/lib/store`,
in the sources appended to `src/types/style-guide.ts`, lines 348-505).
There `spacings : Spacing[]`, `activeSpacing : Spacing | null`,
`config : StyleGuideConfig | null` and `error : string | null`, and each of
`setSpacings` / `setActiveSpacing` / `setConfig` / `setError` is a plain
field replacement (`set({ field })`, lines 439-494), so each store write is
embedded as the corresponding field update on this structure. -/
structure PageState where
  items : List TokenRecord
  activeItem : Option TokenRecord
  config : Option StyleGuideConfig
  errorMsg : Option String
deriving DecidableEq, Repr

/-- The human-readable category label used inside the pages' error
messages (`'Failed to delete spacing. Please try again.'`, ...). -/
def TokenCategory.label : TokenCategory → String
  | .colorScheme => "color scheme"
  | .typography => "typography"
  | .spacing => "spacing"
  | .borderRadius => "border radius"
  | .shadow => "shadow"
  | .animation => "animation"

/-- JS `a || b` for an optional string `a` (absent and `''` are falsy):
`spacing?.id || uuidv4()`, `spacing?.createdAt || now`,
`spacing?.createdBy || userId` in the editors. -/
def jsOrElse (v : Option String) (dflt : String) : String :=
  match v with
  | some s => if s = "" then dflt else s
  | none => dflt

/-- JS `String.prototype.trim` (used in the settings page's validation
guards), as a character-list computation: strip leading and trailing
whitespace. -/
def jsTrim (s : String) : String :=
  String.mk
    (((s.toList.dropWhile Char.isWhitespace).reverse.dropWhile
      Char.isWhitespace).reverse)

/-- JS truthiness of an optional string (`config?.activeSpacing` guard in
the load effect): `null`/absent and `''` are falsy. -/
def jsTruthy (v : Option String) : Bool :=
  match v with
  | some s => s ≠ ""
  | none => false

/-- The record built by the editor's `handleSubmit`
(`SpacingEditor.tsx:62-70`, `ShadowEditor.tsx:49-57`, and the same shape in
every other editor): id kept from the existing record (or a fresh uuid),
`version` incremented from the existing record (or `1`), `createdAt` and
`createdBy` kept (or initialised to `now` / `userId`), `updatedAt := now`. -/
def mkSubmittedRecord (existing : Option TokenRecord) (nm : String)
    (scale : List (String × String)) (freshId now userId : String) :
    TokenRecord :=
  { id := jsOrElse (existing.map fun r => r.id) freshId
    name := nm
    version := match existing with
      | some r => r.version + 1
      | none => 1
    scale := scale
    createdAt := jsOrElse (existing.map fun r => r.createdAt) now
    updatedAt := now
    createdBy := jsOrElse (existing.map fun r => r.createdBy) userId }

/-- Result of the editor's `handleSubmit`: the record handed to `onSave`
(present exactly when the gateway write succeeded), the editor-local error
banner, and the event trace. -/
structure SubmitOutcome where
  saved : Option TokenRecord
  errorMsg : Option String
  events : List Event
deriving DecidableEq, Repr

/-- The editor's `handleSubmit` (`SpacingEditor.tsx:53-98`,
`ShadowEditor.tsx:40-85`): build the record, persist it via gateway
`update` (edit mode) or `insert` (create mode), and only on success hand it
to `onSave`; on gateway failure set the editor error message and leave
everything else untouched.  `gwOk` is the outcome of the awaited gateway
write. -/
def handleSubmit (cat : TokenCategory) (existing : Option TokenRecord)
    (nm : String) (scale : List (String × String))
    (freshId now userId : String) (gwOk : Bool) : SubmitOutcome :=
  let u := mkSubmittedRecord existing nm scale freshId now userId
  let writeEvt := match existing with
    | some _ => Event.gatewayUpdate cat u
    | none => Event.gatewayInsert cat u
  if gwOk then
    { saved := some u, errorMsg := none, events := [writeEvt] }
  else
    { saved := none
      errorMsg := some ("Failed to save " ++ cat.label ++ ". Please try again.")
      events := [writeEvt] }

/-- The page's `handleSave` callback (`spacing/page.tsx:144-161`,
`part_000:144-161`): replace the matching record in the collection in edit
mode, append in create mode, then notify the Change Notifier. -/
def handleSave (cat : TokenCategory) (editing : Bool) (st : PageState)
    (r : TokenRecord) : PageState × List Event :=
  if editing then
    ({ st with items := st.items.map fun s => if s.id = r.id then r else s },
      [Event.memSetCollection cat, Event.emitChange cat.toCategory Action.update])
  else
    ({ st with items := st.items ++ [r] },
      [Event.memSetCollection cat, Event.emitChange cat.toCategory Action.add])

/-- Combined outcome of a submit followed (on success) by the page's
`handleSave`. -/
structure SubmitSaveOutcome where
  state : PageState
  editorError : Option String
  events : List Event
deriving DecidableEq, Repr

/-- Editor submit wired to the page (`onSave := handleSave`): the gateway
write runs first inside `handleSubmit`; `handleSave` and its in-memory
collection update run only when the write succeeded. -/
def submitAndSave (cat : TokenCategory) (existing : Option TokenRecord)
    (nm : String) (scale : List (String × String))
    (freshId now userId : String) (gwOk : Bool) (st : PageState) :
    SubmitSaveOutcome :=
  let o := handleSubmit cat existing nm scale freshId now userId gwOk
  match o.saved with
  | some u =>
    let p := handleSave cat existing.isSome st u
    { state := p.1, editorError := o.errorMsg, events := o.events ++ p.2 }
  | none => { state := st, editorError := o.errorMsg, events := o.events }

/-- The page's `handleSetActive` (`spacing/page.tsx:120-142`,
`part_000:120-142`, and verbatim in the other pages): set the in-memory
active marker first; then, if a config record exists, update the in-memory
config copy and persist the changed field via the gateway; a persist
failure is caught and surfaced as the page error with no rollback.
`persistOk` is the outcome of the awaited gateway update. -/
def handleSetActive (cat : TokenCategory) (st : PageState) (sp : TokenRecord)
    (persistOk : Bool) : PageState × List Event :=
  let st1 := { st with activeItem := some sp }
  let t1 := [Event.memSetActive cat (some sp.id)]
  match st.config with
  | some cfg =>
    let updatedConfig := cfg.setActiveOf cat (some sp.id)
    let st2 := { st1 with config := some updatedConfig }
    let t2 := t1 ++ [Event.memSetConfig updatedConfig,
      Event.gatewayUpdateConfig cat (some sp.id)]
    let failMsg := "Failed to set active " ++ cat.label ++ ". Please try again."
    if persistOk then
      (st2, t2 ++ [Event.emitChange cat.toCategory Action.setActive])
    else
      ({ st2 with errorMsg := some failMsg }, t2)
  | none =>
    (st1, t1 ++ [Event.emitChange cat.toCategory Action.setActive])

/-- The page's `handleDelete` (`spacing/page.tsx:81-118`,
`part_000:81-118`, and verbatim in the other pages): after the confirm
dialog, delete via the gateway; on success filter the record out of the
in-memory collection; if the deleted record was the in-memory active one,
clear the active marker, and additionally — when the config exists and its
Register field equals the deleted id — null the field in the in-memory
config copy and persist the nulled field via the gateway.  A failure of
either awaited gateway call is caught and surfaced as the page error; state
changes already made are kept.  `confirmed` is the confirm-dialog outcome,
`deleteOk` the token delete outcome, `persistOk` the config update
outcome. -/
def handleDelete (cat : TokenCategory) (st : PageState) (tid : String)
    (confirmed deleteOk persistOk : Bool) : PageState × List Event :=
  let failMsg := "Failed to delete " ++ cat.label ++ ". Please try again."
  if !confirmed then (st, [])
  else if !deleteOk then
    ({ st with errorMsg := some failMsg }, [Event.gatewayDelete cat tid])
  else
    let st1 := { st with items := st.items.filter fun s => s.id ≠ tid }
    let t1 := [Event.gatewayDelete cat tid, Event.memSetCollection cat]
    let deletedWasActive := match st.activeItem with
      | some act => act.id == tid
      | none => false
    if deletedWasActive then
      let st2 := { st1 with activeItem := none }
      let t2 := t1 ++ [Event.memSetActive cat none]
      match st.config with
      | some cfg =>
        if cfg.activeOf cat = some tid then
          let updatedConfig := cfg.setActiveOf cat none
          let st3 := { st2 with config := some updatedConfig }
          let t3 := t2 ++ [Event.memSetConfig updatedConfig,
            Event.gatewayUpdateConfig cat none]
          if persistOk then
            (st3, t3 ++ [Event.emitChange cat.toCategory Action.remove])
          else
            ({ st3 with errorMsg := some failMsg }, t3)
        else
          (st2, t2 ++ [Event.emitChange cat.toCategory Action.remove])
      | none =>
        (st2, t2 ++ [Event.emitChange cat.toCategory Action.remove])
    else
      (st1, t1 ++ [Event.emitChange cat.toCategory Action.remove])

/-- The page's load effect (`fetchSpacings`, `spacing/page.tsx:40-69`;
`fetchShadows`, `part_000:40-69`; and verbatim in the other pages): fetch
the collection ordered by name; on success store it, and when the config's
Register field for this category is truthy, look the referenced id up in
the fresh data and set the in-memory active marker only when found — the
marker is left untouched and the Register is not written when the id is
absent.  On gateway failure set the page error and leave the collection as
it was.  `result` is the outcome of the awaited gateway list call (the
gateway returns the rows already ordered). -/
def fetchItems (cat : TokenCategory) (st : PageState)
    (result : Option (List TokenRecord)) : PageState × List Event :=
  let failMsg := "Failed to load " ++ cat.label ++ " settings. Please try again."
  match result with
  | none =>
    ({ st with errorMsg := some failMsg }, [Event.gatewayList cat])
  | some data =>
    let st1 := { st with items := data }
    let t1 := [Event.gatewayList cat, Event.memSetCollection cat]
    let registerRef := match st.config with
      | some cfg => cfg.activeOf cat
      | none => none
    if jsTruthy registerRef then
      match data.find? fun r => some r.id = registerRef with
      | some active =>
        ({ st1 with activeItem := some active },
          t1 ++ [Event.memSetActive cat (some active.id)])
      | none => (st1, t1)
    else (st1, t1)

/-- The Change Notifier's `emitUpdate` (`useStyleGuideSocket.ts:35-45`):
when not connected or real-time sync is disabled it returns immediately;
otherwise it only writes to the console.  In either branch it mutates no
state and performs no gateway call, for any category, action and payload.
The store type `σ` and payload type `α` are abstract: the function can
only return the store it was given. -/
def emitUpdate {σ α : Type} (isConnected isRealTimeEnabled : Bool)
    (category : Category) (act : Action) (payload : α) (store : σ) :
    σ × List Event :=
  if !isConnected || !isRealTimeEnabled then (store, [])
  else (store, [])

/-- Outcome of the settings page's `handleSaveSettings`: the resulting
in-memory config, the error and success banners, and the event trace. -/
structure SettingsOutcome where
  config : Option StyleGuideConfig
  errorMsg : Option String
  success : Option String
  events : List Event
deriving DecidableEq, Repr

/-- The settings page's `handleSaveSettings` (`settings/page.tsx:89-182`).
With an existing config: gateway-update the row, then on success update the
in-memory config.  With no config: build `newConfig` whose six `active*`
fields are the empty string (`settings/page.tsx:132-147`), insert a row
whose six `active_*` columns are `null` (`settings/page.tsx:149-166`), and
on success place `newConfig` in memory.  A gateway failure is caught and
surfaced; the in-memory config is then unchanged.  `gwOk` is the outcome of
the awaited gateway write. -/
def handleSaveSettings (cfg : Option StyleGuideConfig)
    (nm description ver : String) (customFeatures : List (String × Bool))
    (freshId now userId : String) (gwOk : Bool) : SettingsOutcome :=
  if jsTrim nm = "" then
    { config := cfg
      errorMsg := some "Please enter a name for the style guide."
      success := none, events := [] }
  else
    match cfg with
    | some c =>
      let updated : StyleGuideConfig :=
        { c with name := nm
                 description := description
                 version := ver
                 customFeatures := customFeatures
                 updatedAt := now }
      if gwOk then
        { config := some updated
          errorMsg := none
          success := some "Settings saved successfully!"
          events := [Event.gatewayUpdateConfigSettings nm description ver now] }
      else
        { config := cfg
          errorMsg := some "Failed to save settings. Please try again."
          success := none
          events := [Event.gatewayUpdateConfigSettings nm description ver now] }
    | none =>
      let newConfig : StyleGuideConfig :=
        { id := freshId, name := nm, description := description, version := ver
          activeColorScheme := some "", activeTypography := some ""
          activeSpacing := some "", activeBorderRadius := some ""
          activeShadow := some "", activeAnimation := some ""
          customFeatures := customFeatures
          createdAt := now, updatedAt := now, createdBy := userId }
      let row : ConfigRow :=
        { id := newConfig.id, name := nm, description := description
          version := ver
          active_color_scheme := none, active_typography := none
          active_spacing := none, active_border_radius := none
          active_shadow := none, active_animation := none
          custom_features := customFeatures
          created_at := now, updated_at := now, created_by := userId }
      if gwOk then
        { config := some newConfig
          errorMsg := none
          success := some "Settings created successfully!"
          events := [Event.gatewayInsertConfig row] }
      else
        { config := cfg
          errorMsg := some "Failed to save settings. Please try again."
          success := none
          events := [Event.gatewayInsertConfig row] }

/-- JS `Number()` restricted to the digit-only segments of a well-formed
version string: parses a non-empty all-digit character list; anything else
(where JS would produce `NaN`, or `0` for the empty string) is `none`. -/
def parseDigits (cs : List Char) : Option Nat :=
  if cs.isEmpty then none
  else
    cs.foldl
      (fun acc c =>
        match acc with
        | none => none
        | some n => if c.isDigit then some (n * 10 + (c.toNat - Char.toNat '0')) else none)
      (some 0)

/-- The semantic-version bump of `handleCreateNewVersion`
(`settings/page.tsx:200-203`): `version.split('.').map(Number)`, increment
index 2, re-join with `'.'`.  On a well-formed `MAJOR.MINOR.PATCH` string
all three parts parse and the PATCH segment is incremented by 1; on any
other string the JS code would perform `NaN` arithmetic (spec §9:
"undefined numeric behavior"), which the embedding leaves unmodelled as
`none`. -/
def bumpPatchVersion (v : String) : Option String :=
  match (v.toList.splitOn '.').map parseDigits with
  | [some a, some b, some c] =>
    some (toString a ++ "." ++ toString b ++ "." ++ toString (c + 1))
  | _ => none

/-- Outcome of the settings page's `handleCreateNewVersion`: resulting
in-memory config, `version` form state, version-history list, banners and
event trace. -/
structure VersionOutcome where
  config : Option StyleGuideConfig
  versionState : String
  history : List VersionHistory
  errorMsg : Option String
  success : Option String
  events : List Event
deriving DecidableEq, Repr

/-- The settings page's `handleCreateNewVersion`
(`settings/page.tsx:184-263`): reject empty (after trim) change text before
any gateway call; fail when no config exists; otherwise bump the PATCH
segment of the `version` form state, insert a Version History Record
carrying a snapshot of the current config, then gateway-update the config's
version field, and on success update the in-memory config, form state and
history list.  Either gateway failure is caught and surfaced; state changes
already made are kept (there is no transaction).  `insertOk` / `updateOk`
are the outcomes of the two awaited gateway calls.  Returns `none` only in
the malformed-version case that `bumpPatchVersion` leaves unmodelled. -/
def handleCreateNewVersion (cfg : Option StyleGuideConfig)
    (versionState changes : String) (history : List VersionHistory)
    (freshId now userId : String) (insertOk updateOk : Bool) :
    Option VersionOutcome :=
  if jsTrim changes = "" then
    some { config := cfg, versionState := versionState, history := history
           errorMsg := some "Please enter changes for the new version."
           success := none, events := [] }
  else
    match cfg with
    | none =>
      some { config := cfg, versionState := versionState, history := history
             errorMsg := some "Failed to create new version. Please try again."
             success := none, events := [] }
    | some c =>
      match bumpPatchVersion versionState with
      | none => none
      | some newVersion =>
        let newRec : VersionHistory :=
          { id := freshId, styleGuideId := c.id, version := newVersion
            changes := changes, snapshot := c
            createdAt := now, createdBy := userId }
        if !insertOk then
          some { config := cfg, versionState := versionState, history := history
                 errorMsg := some "Failed to create new version. Please try again."
                 success := none
                 events := [Event.gatewayInsertHistory newRec] }
        else if !updateOk then
          some { config := cfg, versionState := versionState, history := history
                 errorMsg := some "Failed to create new version. Please try again."
                 success := none
                 events := [Event.gatewayInsertHistory newRec,
                   Event.gatewayUpdateConfigVersion newVersion now] }
        else
          some { config := some { c with version := newVersion, updatedAt := now }
                 versionState := newVersion
                 history := newRec :: history
                 errorMsg := none
                 success := some "New version created successfully!"
                 events := [Event.gatewayInsertHistory newRec,
                   Event.gatewayUpdateConfigVersion newVersion now] }

/-! ## Concrete fixtures for witnesses and counterexamples -/

/-- A well-formed sample token record (spacing token, §8 scenario 1). -/
def sampleRecord : TokenRecord :=
  { id := "tok-1"
    name := "Default Scale"
    version := 1
    scale := [("4", "1rem")]
    createdAt := "2024-01-01T00:00:00Z"
    updatedAt := "2024-01-01T00:00:00Z"
    createdBy := "user-1" }

/-- A sample configuration whose spacing Register field references
`sampleRecord`. -/
def sampleConfig : StyleGuideConfig :=
  { id := "cfg-1"
    name := "Guide"
    description := "demo"
    version := "1.0.0"
    activeColorScheme := none
    activeTypography := none
    activeSpacing := some "tok-1"
    activeBorderRadius := none
    activeShadow := none
    activeAnimation := none
    customFeatures := [("customCursor", false)]
    createdAt := "t0"
    updatedAt := "t0"
    createdBy := "user-1" }

/-- Page state whose Register references `tok-1` while the in-memory
active marker is unset. -/
def sampleStale : PageState :=
  { items := [sampleRecord]
    activeItem := none
    config := some sampleConfig
    errorMsg := none }

/-- Page state with no configuration record (no Register). -/
def sampleNoCfg : PageState :=
  { items := [sampleRecord]
    activeItem := none
    config := none
    errorMsg := none }

/-- Page state whose Register references `tok-1` and whose in-memory
active marker holds `sampleRecord`. -/
def sampleActive : PageState :=
  { items := [sampleRecord]
    activeItem := some sampleRecord
    config := some sampleConfig
    errorMsg := none }

/-! ## Claims -/

/-- **C1.** For every token category and every existing record `r` (whose
`id`, `createdAt` and `createdBy` are non-empty, as the data model assigns
them at creation), a successful update stores a record whose `version` is
`r.version + 1`, whose `id`, `createdAt` and `createdBy` are unchanged from
`r`, and whose `updatedAt` is the time of the write. -/
theorem update_increments_version_preserves_metadata
    (cat : TokenCategory) (r : TokenRecord) (nm : String)
    (scale : List (String × String)) (freshId now userId : String)
    (hid : r.id ≠ "") (hca : r.createdAt ≠ "") (hcb : r.createdBy ≠ "") :
    ∃ u,
      (handleSubmit cat (some r) nm scale freshId now userId true).saved = some u ∧
      (handleSubmit cat (some r) nm scale freshId now userId true).events
        = [Event.gatewayUpdate cat u] ∧
      u.version = r.version + 1 ∧
      u.id = r.id ∧
      u.createdAt = r.createdAt ∧
      u.createdBy = r.createdBy ∧
      u.updatedAt = now := by
  refine ⟨mkSubmittedRecord (some r) nm scale freshId now userId, ?_, ?_, ?_, ?_, ?_, ?_, ?_⟩ <;>
    simp [handleSubmit, mkSubmittedRecord, jsOrElse, hid, hca, hcb]

/-- Witness for C1: updating the sample spacing record with a changed
scale value. -/
theorem update_increments_version_preserves_metadata_witness :
    ∃ u,
      (handleSubmit TokenCategory.spacing (some sampleRecord) "Default Scale"
        [("4", "1.5rem")] "fresh-id" "2024-01-02T00:00:00Z" "user-2" true).saved = some u ∧
      (handleSubmit TokenCategory.spacing (some sampleRecord) "Default Scale"
        [("4", "1.5rem")] "fresh-id" "2024-01-02T00:00:00Z" "user-2" true).events
        = [Event.gatewayUpdate TokenCategory.spacing u] ∧
      u.version = sampleRecord.version + 1 ∧
      u.id = sampleRecord.id ∧
      u.createdAt = sampleRecord.createdAt ∧
      u.createdBy = sampleRecord.createdBy ∧
      u.updatedAt = "2024-01-02T00:00:00Z" :=
  update_increments_version_preserves_metadata TokenCategory.spacing sampleRecord
    "Default Scale" [("4", "1.5rem")] "fresh-id" "2024-01-02T00:00:00Z" "user-2"
    (by decide) (by decide) (by decide)

/-- **C2.** For every `setActive` invocation in a state with a Register,
the in-memory active marker and the in-memory Register copy are updated to
the record's id strictly before the gateway persist is attempted (the trace
starts with the two memory updates followed by the gateway update), and
when the persist fails the error banner is set while the in-memory marker
and Register copy still hold the new id — no rollback. -/
theorem setActive_memory_first_no_rollback
    (cat : TokenCategory) (st : PageState) (cfg : StyleGuideConfig)
    (sp : TokenRecord) (persistOk : Bool) (hc : st.config = some cfg) :
    (handleSetActive cat st sp persistOk).1.activeItem = some sp ∧
    (handleSetActive cat st sp persistOk).1.config
      = some (cfg.setActiveOf cat (some sp.id)) ∧
    (∃ rest, (handleSetActive cat st sp persistOk).2
      = Event.memSetActive cat (some sp.id)
        :: Event.memSetConfig (cfg.setActiveOf cat (some sp.id))
        :: Event.gatewayUpdateConfig cat (some sp.id) :: rest) ∧
    (persistOk = false →
      (handleSetActive cat st sp persistOk).1.errorMsg
        = some ("Failed to set active " ++ cat.label ++ ". Please try again.")) := by
  cases persistOk <;> simp [handleSetActive, hc]

/-- Witness for C2: `setActive` on the sample record with a failing
persist. -/
theorem setActive_memory_first_no_rollback_witness :
    (handleSetActive TokenCategory.spacing sampleStale sampleRecord false).1.activeItem
      = some sampleRecord ∧
    (handleSetActive TokenCategory.spacing sampleStale sampleRecord false).1.config
      = some (sampleConfig.setActiveOf TokenCategory.spacing (some sampleRecord.id)) ∧
    (∃ rest, (handleSetActive TokenCategory.spacing sampleStale sampleRecord false).2
      = Event.memSetActive TokenCategory.spacing (some sampleRecord.id)
        :: Event.memSetConfig (sampleConfig.setActiveOf TokenCategory.spacing (some sampleRecord.id))
        :: Event.gatewayUpdateConfig TokenCategory.spacing (some sampleRecord.id) :: rest) ∧
    (false = false →
      (handleSetActive TokenCategory.spacing sampleStale sampleRecord false).1.errorMsg
        = some ("Failed to set active " ++ TokenCategory.spacing.label ++ ". Please try again.")) :=
  setActive_memory_first_no_rollback TokenCategory.spacing sampleStale sampleConfig
    sampleRecord false rfl

/-- **C8.** The Change Notifier's `emitUpdate` accepts every category and
every action (including the ones only the call sites pass) and, for every
connection state, payload and store, mutates no state and performs no
gateway call: it is a no-op observer. -/
theorem emitUpdate_is_noop {σ α : Type} (isConnected isRealTimeEnabled : Bool)
    (category : Category) (act : Action) (payload : α) (store : σ) :
    emitUpdate isConnected isRealTimeEnabled category act payload store
      = (store, ([] : List Event)) := by
  simp [emitUpdate]

/-- **C3 counterexample.** In a state whose Register references `tok-1`
while the in-memory active marker is unset, deleting `tok-1` with a
successful gateway delete leaves the Register still referencing the
deleted id — the claim's conclusion (Register nulled and persisted) fails
with only "the Register references the deleted record" as hypothesis. -/
theorem delete_referenced_clears_register_counterexample :
    sampleStale.config = some sampleConfig ∧
    sampleConfig.activeOf TokenCategory.spacing = some "tok-1" ∧
    (handleDelete TokenCategory.spacing sampleStale "tok-1" true true true).1.config
      = some sampleConfig ∧
    Event.gatewayUpdateConfig TokenCategory.spacing none
      ∉ (handleDelete TokenCategory.spacing sampleStale "tok-1" true true true).2 := by
  refine ⟨rfl, rfl, rfl, ?_⟩
  decide

/-- **C3 (amended).** When `remove(id)` is applied to the record referenced
by the Register *and* the in-memory active marker also holds that record,
and the gateway delete succeeds, the record is removed from the in-memory
collection, the active marker becomes `none`, the Register's field for the
category becomes `none`, and the nulled field is written to the gateway. -/
theorem delete_active_clears_register
    (cat : TokenCategory) (st : PageState) (cfg : StyleGuideConfig)
    (act : TokenRecord) (tid : String) (persistOk : Bool)
    (hc : st.config = some cfg) (hreg : cfg.activeOf cat = some tid)
    (hact : st.activeItem = some act) (hid : act.id = tid) :
    (handleDelete cat st tid true true persistOk).1.items
      = st.items.filter (fun s => s.id ≠ tid) ∧
    (handleDelete cat st tid true true persistOk).1.activeItem = none ∧
    (handleDelete cat st tid true true persistOk).1.config
      = some (cfg.setActiveOf cat none) ∧
    Event.gatewayUpdateConfig cat none
      ∈ (handleDelete cat st tid true true persistOk).2 := by
  cases persistOk <;> simp [handleDelete, hc, hreg, hact, hid]

/-- Witness for the amended C3: deleting the sample record while it is both
the Register reference and the in-memory active record. -/
theorem delete_active_clears_register_witness :
    (handleDelete TokenCategory.spacing sampleActive "tok-1" true true true).1.items
      = sampleActive.items.filter (fun s => s.id ≠ "tok-1") ∧
    (handleDelete TokenCategory.spacing sampleActive "tok-1" true true true).1.activeItem = none ∧
    (handleDelete TokenCategory.spacing sampleActive "tok-1" true true true).1.config
      = some (sampleConfig.setActiveOf TokenCategory.spacing none) ∧
    Event.gatewayUpdateConfig TokenCategory.spacing none
      ∈ (handleDelete TokenCategory.spacing sampleActive "tok-1" true true true).2 :=
  delete_active_clears_register TokenCategory.spacing sampleActive sampleConfig
    sampleRecord "tok-1" true rfl rfl rfl rfl

/-- **C4.** For every create or update through the editor, the gateway
write strictly precedes any in-memory collection mutation (every
`memSetCollection` in the trace comes after a gateway write), and when the
gateway write fails the editor error banner is set and the page state —
in particular the in-memory collection — is exactly what it was before. -/
theorem create_update_write_precedes_memory
    (cat : TokenCategory) (existing : Option TokenRecord) (nm : String)
    (scale : List (String × String)) (freshId now userId : String)
    (gwOk : Bool) (st : PageState) :
    collectionWritesAfterGatewayWrite false
      (submitAndSave cat existing nm scale freshId now userId gwOk st).events = true ∧
    (gwOk = false →
      (submitAndSave cat existing nm scale freshId now userId gwOk st).state = st ∧
      (submitAndSave cat existing nm scale freshId now userId gwOk st).editorError
        = some ("Failed to save " ++ cat.label ++ ". Please try again.")) := by
  cases gwOk <;> cases existing <;>
    simp [submitAndSave, handleSubmit, handleSave, collectionWritesAfterGatewayWrite,
      Event.isMemCollection, Event.isGatewayWrite]

/-- Witness for C4: a failing update of the sample record. -/
theorem create_update_write_precedes_memory_witness :
    collectionWritesAfterGatewayWrite false
      (submitAndSave TokenCategory.spacing (some sampleRecord) "Default Scale"
        [("4", "2rem")] "fresh-id" "t2" "user-2" false sampleActive).events = true ∧
    (false = false →
      (submitAndSave TokenCategory.spacing (some sampleRecord) "Default Scale"
        [("4", "2rem")] "fresh-id" "t2" "user-2" false sampleActive).state = sampleActive ∧
      (submitAndSave TokenCategory.spacing (some sampleRecord) "Default Scale"
        [("4", "2rem")] "fresh-id" "t2" "user-2" false sampleActive).editorError
        = some ("Failed to save " ++ TokenCategory.spacing.label ++ ". Please try again.")) :=
  create_update_write_precedes_memory TokenCategory.spacing (some sampleRecord)
    "Default Scale" [("4", "2rem")] "fresh-id" "t2" "user-2" false sampleActive

/-- **C5 counterexample.** With no configuration record, `setActive` on the
sample record does change the in-memory active marker (it becomes the
record), refuting "neither the Register nor the in-memory active state is
changed". -/
theorem setActive_no_register_counterexample :
    sampleNoCfg.config = none ∧
    (handleSetActive TokenCategory.spacing sampleNoCfg sampleRecord true).1.activeItem
      ≠ sampleNoCfg.activeItem := by
  refine ⟨rfl, ?_⟩
  decide

/-- **C5 (amended).** When no Register exists (the configuration record is
null), `setActive(id)` performs no Register transition and no gateway call
— the config stays `none` and the trace contains no gateway write, and no
error is surfaced — but the in-memory active marker *is* still updated to
the record. -/
theorem setActive_no_register_amended
    (cat : TokenCategory) (st : PageState) (sp : TokenRecord)
    (persistOk : Bool) (h : st.config = none) :
    (handleSetActive cat st sp persistOk).1.config = none ∧
    (handleSetActive cat st sp persistOk).1.activeItem = some sp ∧
    (handleSetActive cat st sp persistOk).1.errorMsg = st.errorMsg ∧
    (handleSetActive cat st sp persistOk).2.all (fun e => !e.isGatewayWrite) = true := by
  simp [handleSetActive, h, Event.isGatewayWrite]

/-- Witness for the amended C5. -/
theorem setActive_no_register_amended_witness :
    (handleSetActive TokenCategory.spacing sampleNoCfg sampleRecord true).1.config = none ∧
    (handleSetActive TokenCategory.spacing sampleNoCfg sampleRecord true).1.activeItem
      = some sampleRecord ∧
    (handleSetActive TokenCategory.spacing sampleNoCfg sampleRecord true).1.errorMsg
      = sampleNoCfg.errorMsg ∧
    (handleSetActive TokenCategory.spacing sampleNoCfg sampleRecord true).2.all
      (fun e => !e.isGatewayWrite) = true :=
  setActive_no_register_amended TokenCategory.spacing sampleNoCfg sampleRecord true rfl

/-- **C6.** For every load in which the Register references a (truthy) id
absent from the freshly loaded collection, the collection is replaced but
the in-memory active marker is not set (it keeps its previous value), the
config — including the stale Register field — is unchanged, and no gateway
write occurs (the stale reference is not cleared). -/
theorem load_stale_register_untouched
    (cat : TokenCategory) (st : PageState) (cfg : StyleGuideConfig)
    (aid : String) (data : List TokenRecord)
    (hc : st.config = some cfg) (hreg : cfg.activeOf cat = some aid)
    (haid : aid ≠ "") (habs : ∀ r ∈ data, r.id ≠ aid) :
    (fetchItems cat st (some data)).1.items = data ∧
    (fetchItems cat st (some data)).1.activeItem = st.activeItem ∧
    (fetchItems cat st (some data)).1.config = st.config ∧
    (fetchItems cat st (some data)).2.all (fun e => !e.isGatewayWrite) = true := by
  have hfind : data.find? (fun r => decide (r.id = aid)) = none := by
    apply List.find?_eq_none.mpr
    intro r hr
    simp [habs r hr]
  simp [fetchItems, hc, hreg, jsTruthy, haid, hfind, Event.isGatewayWrite]

/-- Witness for C6: loading a collection that no longer contains the id
the Register references. -/
theorem load_stale_register_untouched_witness :
    (fetchItems TokenCategory.spacing sampleStale (some [])).1.items = [] ∧
    (fetchItems TokenCategory.spacing sampleStale (some [])).1.activeItem
      = sampleStale.activeItem ∧
    (fetchItems TokenCategory.spacing sampleStale (some [])).1.config
      = sampleStale.config ∧
    (fetchItems TokenCategory.spacing sampleStale (some [])).2.all
      (fun e => !e.isGatewayWrite) = true :=
  load_stale_register_untouched TokenCategory.spacing sampleStale sampleConfig
    "tok-1" [] rfl rfl (by decide) (by intro r hr; cases hr)

/-- **C7.** When the configuration exists with a well-formed
`MAJOR.MINOR.PATCH` version, the change text is non-empty after trimming,
and both gateway writes succeed, `createVersion` prepends a Version History
Record whose version has the PATCH segment incremented by exactly 1 and
whose snapshot is the current configuration, and the configuration's
version field becomes that same new version. -/
theorem createVersion_increments_patch
    (c : StyleGuideConfig) (changes : String) (history : List VersionHistory)
    (freshId now userId : String) (a b p : Nat)
    (hv : (c.version.toList.splitOn '.').map parseDigits = [some a, some b, some p])
    (hch : jsTrim changes ≠ "") :
    ∃ out,
      handleCreateNewVersion (some c) c.version changes history freshId now userId true true
        = some out ∧
      out.history
        = { id := freshId
            styleGuideId := c.id
            version := toString a ++ "." ++ toString b ++ "." ++ toString (p + 1)
            changes := changes
            snapshot := c
            createdAt := now
            createdBy := userId } :: history ∧
      out.config = some { c with
        version := toString a ++ "." ++ toString b ++ "." ++ toString (p + 1)
        updatedAt := now } ∧
      out.versionState = toString a ++ "." ++ toString b ++ "." ++ toString (p + 1) ∧
      out.errorMsg = none := by
  have hb : bumpPatchVersion c.version
      = some (toString a ++ "." ++ toString b ++ "." ++ toString (p + 1)) := by
    unfold bumpPatchVersion
    rw [hv]
  simp [handleCreateNewVersion, hb, hch]

/-- Witness for C7: §8 scenario 6 — `createVersion("fix typo")` at version
`"1.0.0"` yields version `"1.0.1"`. -/
theorem createVersion_increments_patch_witness :
    ∃ out,
      handleCreateNewVersion (some sampleConfig) sampleConfig.version "fix typo" []
        "vh-1" "t3" "user-1" true true = some out ∧
      out.history
        = { id := "vh-1"
            styleGuideId := sampleConfig.id
            version := toString 1 ++ "." ++ toString 0 ++ "." ++ toString (0 + 1)
            changes := "fix typo"
            snapshot := sampleConfig
            createdAt := "t3"
            createdBy := "user-1" } :: [] ∧
      out.config = some { sampleConfig with
        version := toString 1 ++ "." ++ toString 0 ++ "." ++ toString (0 + 1)
        updatedAt := "t3" } ∧
      out.versionState = toString 1 ++ "." ++ toString 0 ++ "." ++ toString (0 + 1) ∧
      out.errorMsg = none :=
  createVersion_increments_patch sampleConfig "fix typo" [] "vh-1" "t3" "user-1"
    1 0 0 (by decide) (by decide)

/-- **C9.** When the settings form is saved with no existing configuration
(and a non-empty name) and the insert succeeds, the row persisted via the
gateway has all six active-selection columns `null`, while the
configuration object placed in memory has all six active-selection fields
equal to the empty string — the persisted and in-memory representations of
"no selection" differ. -/
theorem settings_create_null_vs_empty
    (nm description ver : String) (customFeatures : List (String × Bool))
    (freshId now userId : String) (hnm : jsTrim nm ≠ "") :
    ∃ row mem,
      (handleSaveSettings none nm description ver customFeatures freshId now userId true).events
        = [Event.gatewayInsertConfig row] ∧
      (handleSaveSettings none nm description ver customFeatures freshId now userId true).config
        = some mem ∧
      row.active_color_scheme = none ∧ row.active_typography = none ∧
      row.active_spacing = none ∧ row.active_border_radius = none ∧
      row.active_shadow = none ∧ row.active_animation = none ∧
      mem.activeColorScheme = some "" ∧ mem.activeTypography = some "" ∧
      mem.activeSpacing = some "" ∧ mem.activeBorderRadius = some "" ∧
      mem.activeShadow = some "" ∧ mem.activeAnimation = some "" ∧
      row.active_spacing ≠ mem.activeSpacing := by
  let row : ConfigRow :=
    { id := freshId
      name := nm
      description := description
      version := ver
      active_color_scheme := none
      active_typography := none
      active_spacing := none
      active_border_radius := none
      active_shadow := none
      active_animation := none
      custom_features := customFeatures
      created_at := now
      updated_at := now
      created_by := userId }
  let mem : StyleGuideConfig :=
    { id := freshId
      name := nm
      description := description
      version := ver
      activeColorScheme := some ""
      activeTypography := some ""
      activeSpacing := some ""
      activeBorderRadius := some ""
      activeShadow := some ""
      activeAnimation := some ""
      customFeatures := customFeatures
      createdAt := now
      updatedAt := now
      createdBy := userId }
  refine ⟨row, mem, ?_, ?_, rfl, rfl, rfl, rfl, rfl, rfl, rfl, rfl, rfl, rfl, rfl, rfl, ?_⟩ <;>
    simp [handleSaveSettings, hnm, row, mem]

/-- Witness for C9. -/
theorem settings_create_null_vs_empty_witness :
    ∃ row mem,
      (handleSaveSettings none "Guide" "demo" "1.0.0" [] "cfg-2" "t4" "user-1" true).events
        = [Event.gatewayInsertConfig row] ∧
      (handleSaveSettings none "Guide" "demo" "1.0.0" [] "cfg-2" "t4" "user-1" true).config
        = some mem ∧
      row.active_color_scheme = none ∧ row.active_typography = none ∧
      row.active_spacing = none ∧ row.active_border_radius = none ∧
      row.active_shadow = none ∧ row.active_animation = none ∧
      mem.activeColorScheme = some "" ∧ mem.activeTypography = some "" ∧
      mem.activeSpacing = some "" ∧ mem.activeBorderRadius = some "" ∧
      mem.activeShadow = some "" ∧ mem.activeAnimation = some "" ∧
      row.active_spacing ≠ mem.activeSpacing :=
  settings_create_null_vs_empty "Guide" "demo" "1.0.0" [] "cfg-2" "t4" "user-1"
    (by decide)

/-- In `handleDelete`, a gateway write nulling the Register field occurs
only when the in-memory active marker holds the deleted id *and* the
Register field equals it. -/
theorem registerClearPersistRequiresMarkerAndRegister
    (cat : TokenCategory) (st : PageState) (tid : String)
    (confirmed deleteOk persistOk : Bool)
    (hmem : Event.gatewayUpdateConfig cat none
      ∈ (handleDelete cat st tid confirmed deleteOk persistOk).2) :
    ∃ act cfg, st.activeItem = some act ∧ act.id = tid ∧
      st.config = some cfg ∧ cfg.activeOf cat = some tid := by
  by_cases hcn : confirmed
  · by_cases hdo : deleteOk
    · rcases hact : st.activeItem with _ | act
      · simp [handleDelete, hcn, hdo, hact] at hmem
      · by_cases hid : act.id = tid
        · rcases hcfg : st.config with _ | cfg
          · simp [handleDelete, hcn, hdo, hact, hid, hcfg] at hmem
          · by_cases hreg : cfg.activeOf cat = some tid
            · exact ⟨act, cfg, rfl, hid, hcfg ▸ rfl, hreg⟩
            · simp [handleDelete, hcn, hdo, hact, hid, hcfg, hreg] at hmem
        · simp [handleDelete, hcn, hdo, hact, hid] at hmem
    · simp [handleDelete, hcn, hdo] at hmem
  · simp [handleDelete, hcn] at hmem

/-- **C10.** The Register field for a category is cleared-and-persisted by
`remove(id)` only when the in-memory active marker and the Register field
both equal `id`; when the Register field equals `id` but the marker is
unset or holds a different record, the delete still removes the record
from the collection while the Register keeps the deleted id as a dangling
reference and no Register write is attempted. -/
theorem delete_register_dangling_when_marker_differs
    (cat : TokenCategory) (st : PageState) (cfg : StyleGuideConfig)
    (tid : String) (persistOk : Bool)
    (hc : st.config = some cfg) (hreg : cfg.activeOf cat = some tid)
    (hmk : ∀ act, st.activeItem = some act → act.id ≠ tid) :
    ((handleDelete cat st tid true true persistOk).1.items
        = st.items.filter (fun s => s.id ≠ tid) ∧
      (handleDelete cat st tid true true persistOk).1.config = st.config ∧
      Event.gatewayUpdateConfig cat none
        ∉ (handleDelete cat st tid true true persistOk).2) ∧
    (∀ (st2 : PageState) (tid2 : String) (c2 d2 p2 : Bool),
      Event.gatewayUpdateConfig cat none ∈ (handleDelete cat st2 tid2 c2 d2 p2).2 →
      ∃ act cfg2, st2.activeItem = some act ∧ act.id = tid2 ∧
        st2.config = some cfg2 ∧ cfg2.activeOf cat = some tid2) := by
  constructor
  · rcases hact : st.activeItem with _ | act
    · simp [handleDelete, hact]
    · have hne := hmk act hact
      simp [handleDelete, hact, hne]
  · intro st2 tid2 c2 d2 p2 hmem
    exact registerClearPersistRequiresMarkerAndRegister cat st2 tid2 c2 d2 p2 hmem

/-- Witness for C10: deleting `tok-1` while the Register references it but
the in-memory marker is unset. -/
theorem delete_register_dangling_when_marker_differs_witness :
    ((handleDelete TokenCategory.spacing sampleStale "tok-1" true true true).1.items
        = sampleStale.items.filter (fun s => s.id ≠ "tok-1") ∧
      (handleDelete TokenCategory.spacing sampleStale "tok-1" true true true).1.config
        = sampleStale.config ∧
      Event.gatewayUpdateConfig TokenCategory.spacing none
        ∉ (handleDelete TokenCategory.spacing sampleStale "tok-1" true true true).2) ∧
    (∀ (st2 : PageState) (tid2 : String) (c2 d2 p2 : Bool),
      Event.gatewayUpdateConfig TokenCategory.spacing none
        ∈ (handleDelete TokenCategory.spacing st2 tid2 c2 d2 p2).2 →
      ∃ act cfg2, st2.activeItem = some act ∧ act.id = tid2 ∧
        st2.config = some cfg2 ∧
        cfg2.activeOf TokenCategory.spacing = some tid2) :=
  delete_register_dangling_when_marker_differs TokenCategory.spacing sampleStale
    sampleConfig "tok-1" true rfl rfl
    (by intro act h; cases h)

end StyleGuide
